import Mathlib

/-
Verification of the purifly core: the `Option` monad of `src/purifly/monad.py`
(classes `Option`, `OpSome`, `OpNone`, `Mapper`), the exception type of
`src/purifly/error.py` (`UnwrapException`), and the `Sequencer` composition
layer exercised by `src/purifly/test.py`.

The Python classes are embedded shallowly: the two concrete subclasses of the
abstract `Option` become the two constructors of a sum type, each abstract
method becomes one Lean function whose two match arms are the two subclass
bodies, and code that can raise becomes `Except`-valued. Where a claim is
about a caller-supplied callable never being invoked, the callable is
modelled as a transformer of an abstract state `σ` (Python callables may have
side effects), so an invocation is observable in the final state.
-/

namespace Purifly

variable {α β γ σ : Type}

/-- monad.py: the abstract class `Option` has exactly the two concrete
subclasses `OpSome` (a present value, field `__value`) and `OpNone`
(absence, no payload), rendered as a closed sum type. -/
inductive Opt (α : Type) where
  | OpNone : Opt α
  | OpSome : α → Opt α
deriving DecidableEq, Repr

/-- Python exceptions that the embedded code can raise: `unwrapException msg`
is an `error.UnwrapException` instance whose `msg` field is `msg`;
`typeError` and `attributeError` are the Python builtin errors raised on a
call with a wrong arity and on a missing attribute. -/
inductive PyExc where
  | unwrapException : String → PyExc
  | typeError : String → PyExc
  | attributeError : String → PyExc
deriving DecidableEq, Repr

deriving instance DecidableEq for Except

/-- error.py `UnwrapException.__init__(self, msg)` declares exactly one
parameter besides `self`, and Python checks a call against the signature
before running the body: a call `UnwrapException(a1, ..., an)` with n other
than 1 raises a builtin `TypeError`; with n = 1 the instance stores `msg`.
The result is the stored `msg` field of the constructed instance. -/
def UnwrapException.call (args : List String) : Except PyExc String :=
  match args with
  | [msg] => Except.ok msg
  | _ =>
      Except.error (PyExc.typeError
        ("UnwrapException.__init__() takes 2 positional arguments but "
          ++ toString (args.length + 1) ++ " were given"))

/-- error.py `UnwrapException.__str__`: the string form of the exception is
the fixed marker "OptionError: " followed by the stored message. -/
def UnwrapException.str (msg : String) : String := "OptionError: " ++ msg

namespace Opt

/-- monad.py `Option.some`: wraps a value in `OpSome`. -/
def some (v : α) : Opt α := OpSome v

/-- monad.py `Option.none`: creates an `OpNone`. -/
def none : Opt α := OpNone

/-- monad.py `OpSome.__bool__` returns `True`; `OpNone.__bool__` returns
`False`. -/
def toBool : Opt α → Bool
  | OpSome _ => true
  | OpNone => false

/-- monad.py `OpSome.is_some` returns `True`; `OpNone.is_some` returns
`False`. -/
def is_some : Opt α → Bool
  | OpSome _ => true
  | OpNone => false

/-- monad.py `OpSome.is_none` returns `False`; `OpNone.is_none` returns
`True`. -/
def is_none : Opt α → Bool
  | OpSome _ => false
  | OpNone => true

/-- monad.py `OpSome.filter` and `OpSome.or_else` evaluate `self.clone()`,
but no method named `clone` is defined on `OpSome`, on `Option`, or anywhere
else in the repository, so the attribute lookup raises a builtin
`AttributeError` at run time. -/
def clone (_o : Opt α) : Except PyExc (Opt α) :=
  Except.error (PyExc.attributeError "OpSome object has no attribute clone")

/-- monad.py `OpSome.unwrap` returns `self.__value`; `OpNone.unwrap` raises
the result of the two-argument call
`UnwrapException("Option", "call ... on an Option-None object")`
(see `UnwrapException.call` for the arity behaviour of that call). -/
def unwrap (o : Opt α) : Except PyExc α :=
  match o with
  | OpSome v => Except.ok v
  | OpNone =>
      match UnwrapException.call
          ["Option", "call `Option.unwrap` on an `Option<None>` object"] with
      | Except.ok msg => Except.error (PyExc.unwrapException msg)
      | Except.error exc => Except.error exc

/-- monad.py `OpSome.expect` returns `self.__value`; `OpNone.expect` raises
the result of the one-argument call `UnwrapException(msg)`. -/
def expect (o : Opt α) (msg : String) : Except PyExc α :=
  match o with
  | OpSome v => Except.ok v
  | OpNone =>
      match UnwrapException.call [msg] with
      | Except.ok m => Except.error (PyExc.unwrapException m)
      | Except.error exc => Except.error exc

/-- monad.py `OpSome.map` returns `Option.some(func(self.__value))`;
`OpNone.map` returns `Option.none()`. -/
def map (o : Opt α) (func : α → β) : Opt β :=
  match o with
  | OpSome v => Opt.some (func v)
  | OpNone => Opt.none

/-- monad.py `OpSome.filter`: if `func(self.__value)` then `self.clone()`
(whose attribute lookup fails, see `Opt.clone`) else `OpNone()`;
`OpNone.filter` returns `self` without evaluating `func`. -/
def filter (o : Opt α) (func : α → Bool) : Except PyExc (Opt α) :=
  match o with
  | OpSome v => if func v then (OpSome v).clone else Except.ok OpNone
  | OpNone => Except.ok OpNone

/-- monad.py `OpSome.or_else` returns `self.clone()` (whose attribute lookup
fails, see `Opt.clone`); `OpNone.or_else` returns `func()`. -/
def or_else (o : Opt α) (func : Unit → Opt α) : Except PyExc (Opt α) :=
  match o with
  | OpSome v => (OpSome v).clone
  | OpNone => Except.ok (func ())

/-- monad.py `OpSome.map` / `OpNone.map`, read with the caller-supplied
callable allowed a side effect on a state `σ`: `OpSome.map` calls the
callable once on the contained value; the `OpNone.map` body is
`return Option.none()` and does not mention `func`. -/
def mapS (o : Opt α) (func : α → σ → β × σ) (s : σ) : Opt β × σ :=
  match o with
  | OpSome v =>
      let r := func v s
      (Opt.some r.1, r.2)
  | OpNone => (Opt.none, s)

/-- monad.py `OpSome.is_some_and` / `OpNone.is_some_and` with an effectful
predicate: `OpSome` calls it once; the `OpNone` body is `return False`. -/
def is_some_andS (o : Opt α) (func : α → σ → Bool × σ) (s : σ) : Bool × σ :=
  match o with
  | OpSome v => func v s
  | OpNone => (false, s)

/-- monad.py `OpSome.filter` / `OpNone.filter` with an effectful predicate:
`OpSome` calls it once (then takes the `clone` or `OpNone` branch); the
`OpNone` body is `return self`. -/
def filterS (o : Opt α) (func : α → σ → Bool × σ) (s : σ) :
    Except PyExc (Opt α) × σ :=
  match o with
  | OpSome v =>
      let r := func v s
      if r.1 then ((OpSome v).clone, r.2) else (Except.ok OpNone, r.2)
  | OpNone => (Except.ok OpNone, s)

/-- monad.py `OpSome.and_then` / `OpNone.and_then` with an effectful
callable: `OpSome` returns `func(self.__value)`; the `OpNone` body is
`return Option.none()`. -/
def and_thenS (o : Opt α) (func : α → σ → Opt β × σ) (s : σ) : Opt β × σ :=
  match o with
  | OpSome v => func v s
  | OpNone => (Opt.none, s)

/-- monad.py `OpSome.inspect` calls `func(self.__value)` for its effect and
returns `self`; the `OpNone.inspect` body is `return self`. -/
def inspectS (o : Opt α) (func : α → σ → σ) (s : σ) : Opt α × σ :=
  match o with
  | OpSome v => (OpSome v, func v s)
  | OpNone => (OpNone, s)

/-- monad.py `OpSome.map_or` returns `func(self.__value)`; the
`OpNone.map_or` body is `return default` (the eagerly passed value). -/
def map_orS (o : Opt α) (default : β) (func : α → σ → β × σ) (s : σ) :
    β × σ :=
  match o with
  | OpSome v => func v s
  | OpNone => (default, s)

/-- monad.py `OpSome.map_or_else` returns `func(self.__value)`; the
`OpNone.map_or_else` body is `return default()` (the default thunk is run,
`func` is not mentioned). -/
def map_or_elseS (o : Opt α) (default : σ → β × σ) (func : α → σ → β × σ)
    (s : σ) : β × σ :=
  match o with
  | OpSome v => func v s
  | OpNone => default s

end Opt

/-- monad.py `Option.__add__` and `Option.__mul__` receive an arbitrary
Python object as right operand; the embedding distinguishes an actual
`Option` from any non-Option value (kept abstract as a printable tag). -/
inductive Operand (α : Type) where
  | opt : Opt α → Operand α
  | nonOption : String → Operand α

/-- monad.py `Option.__add__`: a right operand that is not an `Option`
raises `TypeError("expect another Option")`; with both operands `Some` the
result is `Option.some(self.unwrap() + other.unwrap())`; otherwise it is
`Option.none()`. -/
def Opt.add [Add α] (self : Opt α) (other : Operand α) :
    Except PyExc (Opt α) :=
  match other with
  | Operand.opt o =>
      if self.is_some && o.is_some then do
        let a ← self.unwrap
        let b ← o.unwrap
        pure (Opt.some (a + b))
      else
        pure Opt.none
  | Operand.nonOption _ => Except.error (PyExc.typeError "expect another Option")

/-- monad.py `Option.__mul__`: same shape as `Option.__add__` with the
payload product `Option.some(self.unwrap() * other.unwrap())`. -/
def Opt.mul [Mul α] (self : Opt α) (other : Operand α) :
    Except PyExc (Opt α) :=
  match other with
  | Operand.opt o =>
      if self.is_some && o.is_some then do
        let a ← self.unwrap
        let b ← o.unwrap
        pure (Opt.some (a * b))
      else
        pure Opt.none
  | Operand.nonOption _ => Except.error (PyExc.typeError "expect another Option")

/-- monad.py `Mapper`: an abstract class whose single abstract operation is
`map(data: Option) -> Option`; a concrete variant is a record holding its
`map` implementation. -/
structure Mapper (α : Type) where
  map : Opt α → Opt α

/-- monad.py `Mapper.__call__`: the whole body is `return self.map(data)`. -/
def Mapper.call (m : Mapper α) (data : Opt α) : Opt α := m.map data

/-- Modelled from the spec: the `Sequencer` class lives in the module `core`
that `src/purifly/test.py` imports (`from core import Pipe, Sequencer`), but
that module is absent from `src/` (the `core.py` present holds only the
excluded pipeline runner). Spec sections 3 and 4.3: a `Sequencer` owns an
ordered list of pipes, fixed at construction. -/
structure Sequencer (α : Type) where
  pipes : List (Mapper α)

/-- Modelled from the spec (section 4.3, `Sequencer.map` loop): iterate the
pipes in list order, at each step replacing `data` with `pipe.map(data)`; if
the result becomes `None`, stop immediately and return `None`; if the list
is exhausted, return the final value. -/
def seqRun : List (Mapper α) → Opt α → Opt α
  | [], data => data
  | p :: rest, data =>
      let r := p.map data
      if r.is_none then Opt.none else seqRun rest r

/-- Modelled from the spec (section 4.3): `Sequencer.map` runs the loop
`seqRun` over the owned pipe list. -/
def Sequencer.map (self : Sequencer α) (data : Opt α) : Opt α :=
  seqRun self.pipes data

/-- Modelled from the spec (section 4.3), with each pipe allowed a side
effect on a state `σ` so that pipe invocations are observable: the same loop
as `seqRun`, threading the state through the pipes that are invoked. -/
def seqRunS : List (Opt α → σ → Opt α × σ) → Opt α → σ → Opt α × σ
  | [], data, s => (data, s)
  | p :: rest, data, s =>
      let r := p data s
      if r.1.is_none then (Opt.none, r.2) else seqRunS rest r.1 r.2

/-- A concrete `Mapper` variant whose `map` returns `Some 0` on every input,
`None` included. -/
def constMapper : Mapper Nat := Mapper.mk (fun _ => Opt.some 0)

/-- A concrete `Mapper` variant that adds one to a present payload, as the
`AddOnePipe` of test.py does. -/
def incMapper : Mapper Nat := Mapper.mk (fun d => d.map (fun x => x + 1))

/-- An instrumented pipe that drops every input (returns `None`) and counts
its invocation by bumping the state. -/
def dropPipe : Opt Nat → Nat → Opt Nat × Nat := fun _ s => (Opt.none, s + 1)

/-- An instrumented pipe that returns its input and adds 100 to the state,
so any invocation of it after a drop would be visible in the final state. -/
def tailPipe : Opt Nat → Nat → Opt Nat × Nat := fun d s => (d, s + 100)

/-- C1: counterexample - invoking a concrete `Mapper` variant through
`Mapper.__call__` on a `None` input returns `Some 0`, not `None`: `__call__`
invoked the variant's `map` on the `None` input instead of
short-circuiting. -/
theorem C1_call_counterexample :
    constMapper.call Opt.none = Opt.some 0 ∧
    Opt.some 0 ≠ (Opt.none : Opt Nat) :=
  ⟨rfl, by decide⟩

/-- C1 (amended): `Mapper.__call__` unconditionally delegates to the
variant's `map`: on every input, `None` included, it returns
`self.map(data)`, so the variant's `map` is always invoked and `__call__`
itself provides no short-circuit. -/
theorem C1_call_delegates (m : Mapper α) (data : Opt α) :
    m.call data = m.map data := rfl

/-- C2: the code is wrong where the claim says `Option.none().unwrap()`
raises an `UnwrapException`: the body passes two positional arguments to
`UnwrapException.__init__`, which accepts only `msg`, so the constructor
call itself raises a builtin `TypeError`; `Option.some(v).unwrap()` does
return the value, shown at `v = 3`. -/
theorem C2_unwrap_type_error :
    (Opt.none : Opt Nat).unwrap =
      Except.error (PyExc.typeError
        ("UnwrapException.__init__() takes 2 positional arguments but 3 were given")) ∧
    (Opt.some 3).unwrap = Except.ok 3 :=
  ⟨by decide, rfl⟩

/-- C3: the code is wrong where the claim says `Option.some(4).filter(even)`
returns `Some 4`: the predicate-true branch of `OpSome.filter` evaluates the
undefined `self.clone()`, raising `AttributeError`; the predicate-false case
and the `None` receiver behave as the claim says. -/
theorem C3_filter_attribute_error :
    Opt.filter (Opt.some 4) (fun n => n % 2 == 0) =
      Except.error (PyExc.attributeError "OpSome object has no attribute clone") ∧
    Opt.filter (Opt.some 3) (fun n => n % 2 == 0) = Except.ok Opt.none ∧
    Opt.filter (Opt.none : Opt Nat) (fun n => n % 2 == 0) = Except.ok Opt.none :=
  ⟨by decide, by decide, rfl⟩

/-- C4: the code is wrong where the claim says `Option.some(v).or_else(fn)`
returns the receiver unchanged: `OpSome.or_else` returns the undefined
`self.clone()`, raising `AttributeError`; on a `None` receiver it returns
`fn()` as the claim says. -/
theorem C4_or_else_attribute_error :
    Opt.or_else (Opt.some 1) (fun _ => Opt.some 2) =
      Except.error (PyExc.attributeError "OpSome object has no attribute clone") ∧
    Opt.or_else (Opt.none : Opt Nat) (fun _ => Opt.some 2) =
      Except.ok (Opt.some 2) :=
  ⟨rfl, rfl⟩

/-- C5: counterexample - `Option.none().expect("boom")` raises an
`UnwrapException` storing exactly "boom", but the surfaced string form of
that exception (its `__str__`) is "OptionError: boom", not "boom": the
surfaced message is not the verbatim `msg`. -/
theorem C5_expect_counterexample :
    Opt.expect (Opt.none : Opt Nat) "boom" =
      Except.error (PyExc.unwrapException "boom") ∧
    UnwrapException.str "boom" = "OptionError: boom" ∧
    UnwrapException.str "boom" ≠ "boom" :=
  ⟨rfl, rfl, by decide⟩

/-- C5 (amended): `Option.some(v).expect(msg)` returns `v`;
`Option.none().expect(msg)` raises an `UnwrapError` whose stored `msg`
attribute is exactly `msg`, and whose surfaced string form is the fixed
marker "OptionError: " followed by `msg`. -/
theorem C5_expect_amended (v : α) (msg : String) :
    (Opt.some v).expect msg = Except.ok v ∧
    Opt.expect (Opt.none : Opt α) msg =
      Except.error (PyExc.unwrapException msg) ∧
    UnwrapException.str msg = "OptionError: " ++ msg :=
  ⟨rfl, rfl, rfl⟩

/-- C6: `Sequencer.map` with an empty pipe list returns its input unchanged
(any input, `Some` or `None`); with a non-empty list it applies the head
pipe first and replaces the data with its result, recursing on the rest only
when that result is present; and as soon as a pipe yields `None` the run
stops with `None` and the remaining pipes are never invoked: the final
instrumentation state is exactly the state left by the dropping pipe,
untouched by the pipes after it. -/
theorem C6_sequencer (d : Opt α) (p : Mapper α) (ps : List (Mapper α))
    (q : Opt α → σ → Opt α × σ) (qs : List (Opt α → σ → Opt α × σ)) (s : σ)
    (h : (q d s).1 = Opt.none) :
    Sequencer.map (Sequencer.mk []) d = d ∧
    Sequencer.map (Sequencer.mk (p :: ps)) d =
      (if (p.map d).is_none then Opt.none
        else Sequencer.map (Sequencer.mk ps) (p.map d)) ∧
    seqRunS (q :: qs) d s = (Opt.none, (q d s).2) := by
  refine ⟨rfl, rfl, ?_⟩
  have hb : (q d s).1.is_none = true := by rw [h]; rfl
  show (let r := q d s;
        if r.1.is_none then ((Opt.none : Opt α), r.2)
        else seqRunS qs r.1 r.2) = (Opt.none, (q d s).2)
  rw [if_pos hb]

/-- C6 witness: the sequencer theorem applied at the concrete data
`Some 5`, head pipe `incMapper`, dropping pipe `dropPipe` followed by
`tailPipe`, starting state 0. -/
theorem C6_sequencer_witness :
    (dropPipe (Opt.some 5) 0).1 = Opt.none ∧
    (Sequencer.map (Sequencer.mk []) (Opt.some 5) = Opt.some 5 ∧
      Sequencer.map (Sequencer.mk (incMapper :: [])) (Opt.some 5) =
        (if (incMapper.map (Opt.some 5)).is_none then Opt.none
          else Sequencer.map (Sequencer.mk []) (incMapper.map (Opt.some 5))) ∧
      seqRunS (dropPipe :: [tailPipe]) (Opt.some 5) 0 =
        (Opt.none, (dropPipe (Opt.some 5) 0).2)) :=
  ⟨by decide,
    C6_sequencer (Opt.some 5) incMapper [] dropPipe [tailPipe] 0 (by decide)⟩

/-- C7: every combinator applied to `Option.none()` yields `None` (or runs
the default branch) without invoking the callable meant for the `Some`
branch: with that callable modelled as a state transformer, the result and
the final state are independent of it and the state is exactly the input
state, except that `map_or_else` runs the default thunk (and only it). -/
theorem C7_none_absorption (f : α → σ → β × σ) (g : α → σ → Bool × σ)
    (h : α → σ → Opt β × σ) (k : α → σ → σ) (d : β) (dthunk : σ → β × σ)
    (fp : α → β) (s : σ) :
    Opt.map (Opt.none : Opt α) fp = Opt.none ∧
    Opt.mapS (Opt.none : Opt α) f s = (Opt.none, s) ∧
    Opt.is_some_andS (Opt.none : Opt α) g s = (false, s) ∧
    Opt.filterS (Opt.none : Opt α) g s = (Except.ok Opt.none, s) ∧
    Opt.and_thenS (Opt.none : Opt α) h s = (Opt.none, s) ∧
    Opt.inspectS (Opt.none : Opt α) k s = (Opt.none, s) ∧
    Opt.map_orS (Opt.none : Opt α) d f s = (d, s) ∧
    Opt.map_or_elseS (Opt.none : Opt α) dthunk f s = dthunk s :=
  ⟨rfl, rfl, rfl, rfl, rfl, rfl, rfl, rfl⟩

/-- C8: the functor laws for `map` on a present value: mapping the identity
returns an equal option, and two successive maps equal one map of the
composite. -/
theorem C8_functor_laws (v : α) (f : α → β) (g : β → γ) :
    (Opt.some v).map id = Opt.some v ∧
    ((Opt.some v).map f).map g = Opt.some (g (f v)) :=
  ⟨rfl, rfl⟩

/-- C9: the arithmetic operators on Options: with both operands `Some` the
result is `Some` of the payload sum (resp. product), in particular
`some 2 + some 3 = some 5`; with either operand `None` the result is `None`;
and a non-Option right operand raises `TypeError`. -/
theorem C9_arith_operators (a b : Int) (o : Opt Int) (r : String) :
    Opt.add (Opt.some a) (Operand.opt (Opt.some b)) =
      Except.ok (Opt.some (a + b)) ∧
    Opt.mul (Opt.some a) (Operand.opt (Opt.some b)) =
      Except.ok (Opt.some (a * b)) ∧
    Opt.add (Opt.some 2) (Operand.opt (Opt.some 3)) =
      Except.ok (Opt.some (5 : Int)) ∧
    Opt.add (Opt.some a) (Operand.opt (Opt.none : Opt Int)) =
      Except.ok Opt.none ∧
    Opt.add (Opt.none : Opt Int) (Operand.opt o) = Except.ok Opt.none ∧
    Opt.mul (Opt.some a) (Operand.opt (Opt.none : Opt Int)) =
      Except.ok Opt.none ∧
    Opt.mul (Opt.none : Opt Int) (Operand.opt o) = Except.ok Opt.none ∧
    Opt.add o (Operand.nonOption r) =
      Except.error (PyExc.typeError "expect another Option") ∧
    Opt.mul o (Operand.nonOption r) =
      Except.error (PyExc.typeError "expect another Option") :=
  ⟨rfl, rfl, by decide, rfl, rfl, rfl, rfl, rfl, rfl⟩

/-- C10: truthiness agrees with presence: for every option, `__bool__`
returns exactly `is_some`; every `Some` is truthy whatever its payload,
`None` is falsy, and `is_none` is the negation of `is_some`. -/
theorem C10_bool_agrees_is_some (o : Opt α) (v : α) :
    o.toBool = o.is_some ∧
    (Opt.some v).toBool = true ∧
    (Opt.none : Opt α).toBool = false ∧
    o.is_none = !o.is_some := by
  cases o <;> exact ⟨rfl, rfl, rfl, rfl⟩

end Purifly
